import Mathlib

/-!
Verification development for the SMC scalper repository.

The definitions below are a shallow embedding of the pattern-detection and
trade-simulation core of the repository (src/backtester.py and src/engine.py).
Prices are modelled as rationals; a candle series is a list of candles indexed
by position, matching the dataframe's positional indexing.  Functions that the
source expresses with pandas slicing/filtering are translated with
List.take / List.drop / List.filter over the same index ranges.  A source
expression that raises on out-of-range access is modelled as returning none
(each such place is commented).
-/

/-- Direction of a market-structure shift / order block / fair-value gap
("bullish" / "bearish" strings in the source). -/
inductive Dir
  | bullish
  | bearish
deriving DecidableEq, Repr

/-- One OHLC candle (a dataframe row in the source).  `open_` is the source's
`open` field (a reserved word in Lean). -/
structure Candle where
  time : ℚ
  open_ : ℚ
  high : ℚ
  low : ℚ
  close : ℚ
  volume : ℚ
deriving DecidableEq, Repr

/-- Confluence quality tier ('high' / 'medium' / 'low' strings in the source). -/
inductive Quality
  | high
  | medium
  | low
deriving DecidableEq, Repr

/-- Setup quality rating ('EXCELLENT' / 'GOOD' / 'FAIR' / 'POOR'). -/
inductive Rating
  | excellent
  | good
  | fair
  | poor
deriving DecidableEq, Repr

/-- Trade outcome strings of `Backtester.simulate_trade`. -/
inductive Outcome
  | win
  | loss
  | timeout
  | expired
deriving DecidableEq, Repr

/-- The outcome dictionary returned by `Backtester.simulate_trade`.  Keys that
are absent from some of the source's return dictionaries (`bars_held`,
`exit_price` are missing on the 'expired' and 'timeout' paths, `bars_to_fill`
is `None` on the 'expired' paths) are modelled as `Option` fields. -/
structure TradeResult where
  outcome : Outcome
  pnl : ℚ
  pips : ℚ
  bars_to_fill : Option Nat
  bars_held : Option Nat
  exit_price : Option ℚ
deriving DecidableEq, Repr

/-- An order block as built by `Backtester.find_order_block` (the engine's
version carries the same decision-relevant fields plus the raw open/close/time,
which are not used by any claim). -/
structure OrderBlock where
  type : Dir
  high : ℚ
  low : ℚ
  body_high : ℚ
  body_low : ℚ
deriving DecidableEq, Repr

/-- A fair-value gap as built by `find_fvg`. -/
structure FVG where
  type : Dir
  high : ℚ
  low : ℚ
deriving DecidableEq, Repr

namespace Backtester

/-- `point = 0.0001  # For EURUSD` in `simulate_trade`. -/
def point : ℚ := 1 / 10000

/-- The quality-tier risk multiplier of `simulate_trade`:
`1.5 if quality_score >= 90 else 1.3 if quality_score >= 85 else 1.1 if quality_score >= 75 else 1.0`. -/
def riskMultiplier (quality_score : ℚ) : ℚ :=
  if quality_score ≥ 90 then 1.5
  else if quality_score ≥ 85 then 1.3
  else if quality_score ≥ 75 then 1.1
  else 1

/-- Whether a candle fills the pending limit order, per the fill loop of
`simulate_trade`: `low <= entry` for a bullish limit, `high >= entry` for a
bearish one. -/
def fillTouch (mss_type : Dir) (entry : ℚ) (c : Candle) : Bool :=
  match mss_type with
  | .bullish => c.low ≤ entry
  | .bearish => c.high ≥ entry

/-- Whether a candle breaches the stop-loss, per the resolution loop of
`simulate_trade`: `low <= sl` (bullish) / `high >= sl` (bearish). -/
def slHit (mss_type : Dir) (sl : ℚ) (c : Candle) : Bool :=
  match mss_type with
  | .bullish => c.low ≤ sl
  | .bearish => c.high ≥ sl

/-- Whether a candle reaches the take-profit, per the resolution loop of
`simulate_trade`: `high >= tp` (bullish) / `low <= tp` (bearish). -/
def tpHit (mss_type : Dir) (tp : ℚ) (c : Candle) : Bool :=
  match mss_type with
  | .bullish => c.high ≥ tp
  | .bearish => c.low ≤ tp

/-- The fill loop of `simulate_trade`:
`for i in range(signal_index, min(signal_index + max_lookback, len(df)))`,
returning the first index whose candle touches the limit price.  `fuel` is the
remaining number of loop iterations (60 at the top-level call); running past
the end of the list ends the loop. -/
def fillScan (df : List Candle) (mss_type : Dir) (entry : ℚ) (i : Nat) : Nat → Option Nat
  | 0 => none
  | fuel + 1 =>
    match df.get? i with
    | none => none
    | some candle =>
      if fillTouch mss_type entry candle then some i
      else fillScan df mss_type entry (i + 1) fuel

/-- The trade-resolution loop of `simulate_trade`:
`for i in range(fill_index, min(fill_index + 200, len(df)))`, checking per
candle the stop-loss breach first, then the take-profit.  `fuel` is the
remaining number of iterations (200 at the top-level call); exhausting the
window or the list yields the 'timeout' dictionary. -/
def resolveScan (df : List Candle) (mss_type : Dir) (entry sl tp risk_amount : ℚ)
    (fill_index bars_to_fill : Nat) (i : Nat) : Nat → TradeResult
  | 0 => ⟨.timeout, 0, 0, some bars_to_fill, none, none⟩
  | fuel + 1 =>
    match df.get? i with
    | none => ⟨.timeout, 0, 0, some bars_to_fill, none, none⟩
    | some candle =>
      match mss_type with
      | .bullish =>
        if candle.low ≤ sl then
          ⟨.loss, -risk_amount, -|entry - sl| * 10000, some bars_to_fill,
            some (i - fill_index), some sl⟩
        else if candle.high ≥ tp then
          ⟨.win, |tp - entry| / |entry - sl| * risk_amount, |tp - entry| * 10000,
            some bars_to_fill, some (i - fill_index), some tp⟩
        else resolveScan df mss_type entry sl tp risk_amount fill_index bars_to_fill (i + 1) fuel
      | .bearish =>
        if candle.high ≥ sl then
          ⟨.loss, -risk_amount, -|sl - entry| * 10000, some bars_to_fill,
            some (i - fill_index), some sl⟩
        else if candle.low ≤ tp then
          ⟨.win, |entry - tp| / |sl - entry| * risk_amount, |entry - tp| * 10000,
            some bars_to_fill, some (i - fill_index), some tp⟩
        else resolveScan df mss_type entry sl tp risk_amount fill_index bars_to_fill (i + 1) fuel

/-- The 'expired' return dictionary of `simulate_trade`
(`{'outcome': 'expired', 'pnl': 0, 'pips': 0, 'bars_to_fill': None}`);
identical on the degenerate-stop path and on the no-fill path. -/
def expiredResult : TradeResult := ⟨.expired, 0, 0, none, none, none⟩

/-- `Backtester.simulate_trade(df, signal_index, mss_type, entry, sl, tp, quality_score)`.
`balance` is `self.current_balance` and `risk_per_trade` is
`self.risk_per_trade`.  The lot size is computed by the source but never used
for the outcome; it is kept here as an unused binding. -/
def simulate_trade (df : List Candle) (signal_index : Nat) (mss_type : Dir)
    (entry sl tp quality_score balance risk_per_trade : ℚ) : TradeResult :=
  let adjusted_risk := risk_per_trade * riskMultiplier quality_score
  let risk_amount := balance * adjusted_risk
  let sl_distance := |entry - sl|
  if sl_distance < point then expiredResult
  else
    let _lot_size := risk_amount / (sl_distance / point * 10)
    match fillScan df mss_type entry signal_index 60 with
    | none => expiredResult
    | some fill_index =>
      resolveScan df mss_type entry sl tp risk_amount fill_index
        (fill_index - signal_index) fill_index 200

/-- The confluence dictionary of `Backtester.check_confluence`
(`{'overlap_pct': ..., 'quality': ...}`). -/
structure Confluence where
  overlap_pct : ℚ
  quality : Quality
deriving DecidableEq, Repr

/-- The setup-quality dictionary of `Backtester.calculate_setup_quality`
(`{'score': ..., 'quality': ...}`). -/
structure SetupQuality where
  score : Nat
  quality : Rating
deriving DecidableEq, Repr

/-- The highs of the swing-high rows of a window, in order, as computed by the
pandas shift-based flags: row `j` is a swing high iff it has both neighbours
inside the window and its high is strictly greater than both
(`high > high.shift(1)` and `high > high.shift(-1)`; the boundary rows compare
against NaN and are never flagged). -/
def swingHighList : List Candle → List ℚ
  | a :: b :: c :: rest =>
    (if b.high > a.high ∧ b.high > c.high then [b.high] else []) ++
      swingHighList (b :: c :: rest)
  | _ => []

/-- The lows of the swing-low rows of a window, in order
(`low < low.shift(1)` and `low < low.shift(-1)`). -/
def swingLowList : List Candle → List ℚ
  | a :: b :: c :: rest =>
    (if b.low < a.low ∧ b.low < c.low then [b.low] else []) ++
      swingLowList (b :: c :: rest)
  | _ => []

/-- `Backtester.detect_mss(df, index)`.  The swing flags are computed inside
the window `df.iloc[max(0, index-lookback):index]` with `lookback =
min(20, index)`; the breaking candle is `df.iloc[index-1]` (an out-of-range
`index` raises in the source and is modelled as no signal). -/
def detect_mss (df : List Candle) (index : Nat) : Option (Dir × ℚ) :=
  if index < 3 then none
  else
    let lookback := min 20 index
    let window := (df.take index).drop (index - lookback)
    match df.get? (index - 1) with
    | none => none
    | some current_candle =>
      match (swingHighList window).getLast?, (swingLowList window).getLast? with
      | some last_swing_high, some last_swing_low =>
        if current_candle.close > last_swing_high then
          some (.bullish, current_candle.low)
        else if current_candle.close < last_swing_low then
          some (.bearish, current_candle.high)
        else none
      | _, _ => none

/-- Whether a candle's body direction is opposite the shift direction:
`close < open` for a bullish shift, `close > open` for a bearish one. -/
def oppositeBody (mss_type : Dir) (c : Candle) : Bool :=
  match mss_type with
  | .bullish => c.close < c.open_
  | .bearish => c.close > c.open_

/-- The order-block record `Backtester.find_order_block` builds from the
selected candle. -/
def mkOrderBlock (mss_type : Dir) (c : Candle) : OrderBlock :=
  ⟨mss_type, c.high, c.low, max c.open_ c.close, min c.open_ c.close⟩

/-- `Backtester.find_order_block(df, index, mss_type, lookback=20)`.  The scan
window is `df.iloc[max(0, index-lookback):index]`, i.e. the candles at indices
`index-lookback` through `index-1`; among them the most recent candle with
opposite body colour is selected (`.iloc[-1]` of the filtered rows). -/
def find_order_block (df : List Candle) (index : Nat) (mss_type : Dir)
    (lookback : Nat := 20) : Option OrderBlock :=
  if index < lookback then none
  else
    let window := (df.take index).drop (index - lookback)
    match mss_type with
    | .bullish =>
      ((window.filter fun c => c.close < c.open_).getLast?).map (mkOrderBlock .bullish)
    | .bearish =>
      ((window.filter fun c => c.close > c.open_).getLast?).map (mkOrderBlock .bearish)

/-- `Backtester.find_fvg(df, index)`: the three-candle gap test on
`df.iloc[index-4]` and `df.iloc[index-2]` (the middle candle `df.iloc[index-3]`
is fetched by the source but unused).  An out-of-range access raises in the
source and is modelled as none. -/
def find_fvg (df : List Candle) (index : Nat) : Option FVG :=
  if index < 4 then none
  else
    match df.get? (index - 4), df.get? (index - 2) with
    | some c1, some c3 =>
      if c3.low > c1.high then some ⟨.bullish, c3.low, c1.high⟩
      else if c3.high < c1.low then some ⟨.bearish, c1.low, c3.high⟩
      else none
    | _, _ => none

/-- `Backtester.check_confluence(ob, fvg, min_overlap=40)`. -/
def check_confluence (ob : Option OrderBlock) (fvg : Option FVG)
    (min_overlap : ℚ) : Option Confluence :=
  match ob, fvg with
  | some ob, some fvg =>
    if ob.type ≠ fvg.type then none
    else
      let overlap_high := min ob.high fvg.high
      let overlap_low := max ob.low fvg.low
      if overlap_low ≥ overlap_high then none
      else
        let overlap_size := overlap_high - overlap_low
        let fvg_size := fvg.high - fvg.low
        let overlap_pct := if fvg_size > 0 then overlap_size / fvg_size * 100 else 0
        if overlap_pct < min_overlap then none
        else
          some ⟨overlap_pct,
            if overlap_pct ≥ 70 then .high
            else if overlap_pct ≥ 50 then .medium
            else .low⟩
  | _, _ => none

/-- `Backtester.calculate_setup_quality(mss, ob, fvg, confluence)`. -/
def calculate_setup_quality (mss : Option Dir) (ob : Option OrderBlock)
    (fvg : Option FVG) (confluence : Option Confluence) : SetupQuality :=
  let score :=
    (if mss.isSome then 25 else 0) +
    (if ob.isSome then 25 else 0) +
    (if fvg.isSome then 25 else 0) +
    (match confluence with
     | some c =>
       match c.quality with
       | .high => 25
       | .medium => 20
       | .low => 15
     | none => 0)
  ⟨score,
    if score ≥ 90 then .excellent
    else if score ≥ 75 then .good
    else if score ≥ 60 then .fair
    else .poor⟩

/-- `Backtester.get_entry_price(ob, fvg, confluence)`.  Only the high-quality
confluence branch and the order-block body-edge branch exist in this copy; the
high branch recomputes the overlap zone from `ob` and `fvg` (it raises in the
source if either is missing, modelled as none — unreachable from the
orchestrator, which only passes a confluence derived from both). -/
def get_entry_price (ob : Option OrderBlock) (fvg : Option FVG)
    (confluence : Option Confluence) : Option ℚ :=
  let highBranch : Bool :=
    match confluence with
    | some c => c.quality = .high
    | none => false
  if highBranch then
    match ob, fvg with
    | some ob, some fvg =>
      some ((min ob.high fvg.high + max ob.low fvg.low) / 2)
    | _, _ => none
  else
    match ob with
    | some ob => some (if ob.type = .bullish then ob.body_low else ob.body_high)
    | none => none

/-- A trade record as appended to `self.trades` by `Backtester.run_backtest`
(`{'date', 'direction', 'entry', 'sl', 'tp', 'quality_score', 'quality',
'rr_ratio', **result}`). -/
structure TradeRecord where
  date : ℚ
  direction : Dir
  entry : ℚ
  sl : ℚ
  tp : ℚ
  quality_score : Nat
  quality : Rating
  rr_ratio : ℚ
  result : TradeResult
deriving DecidableEq, Repr

/-- The configuration dictionary consumed by `run_backtest`. -/
structure BTConfig where
  min_quality : Nat
  min_confluence : ℚ
  require_confluence : Bool
deriving DecidableEq, Repr

/-- The orchestrator's mutable state: `self.current_balance`,
`self.equity_curve`, `self.trades`, plus the `signals_found` /
`trades_taken` counters of `run_backtest`. -/
structure BTState where
  current_balance : ℚ
  equity_curve : List ℚ
  trades : List TradeRecord
  signals_found : Nat
  trades_taken : Nat
deriving DecidableEq, Repr

/-- The signal-to-trade part of one iteration of the `run_backtest` scan loop:
everything after a structure shift is detected at index `i`, returning the
trade record to append when the simulated outcome is a win or a loss, and none
on any of the `continue` paths or a non-closing outcome.  Python's
`if not entry: continue` also skips a zero entry price, hence the explicit
`entry = 0` test. -/
def tryTrade (df : List Candle) (cfg : BTConfig) (risk_per_trade balance : ℚ)
    (i : Nat) : Option TradeRecord :=
  match detect_mss df i with
  | none => none
  | some (mss_type, sl) =>
    let ob := find_order_block df i mss_type
    let fvg := find_fvg df i
    let confluence := check_confluence ob fvg cfg.min_confluence
    if cfg.require_confluence ∧ confluence.isNone then none
    else
      let quality := calculate_setup_quality (some mss_type) ob fvg confluence
      if quality.score < cfg.min_quality then none
      else
        match get_entry_price ob fvg confluence with
        | none => none
        | some entry =>
          if entry = 0 then none
          else
            let risk := |entry - sl|
            let rr_ratio : ℚ :=
              if quality.score ≥ 90 then 3 else if quality.score ≥ 75 then 2.5 else 2
            let tp :=
              match mss_type with
              | .bullish => entry + risk * rr_ratio
              | .bearish => entry - risk * rr_ratio
            let result :=
              simulate_trade df i mss_type entry sl tp quality.score balance risk_per_trade
            if result.outcome = .win ∨ result.outcome = .loss then
              match df.get? i with
              | none => none
              | some signal_candle =>
                some ⟨signal_candle.time, mss_type, entry, sl, tp, quality.score,
                  quality.quality, rr_ratio, result⟩
            else none

/-- One iteration of the `run_backtest` scan loop at index `i`: bump
`signals_found` when a shift is detected, and when `tryTrade` closes a trade,
update the balance and append to the equity curve and trade log. -/
def step (df : List Candle) (cfg : BTConfig) (risk_per_trade : ℚ)
    (s : BTState) (i : Nat) : BTState :=
  let s :=
    if (detect_mss df i).isSome then { s with signals_found := s.signals_found + 1 } else s
  match tryTrade df cfg risk_per_trade s.current_balance i with
  | none => s
  | some record =>
    let newBalance := s.current_balance + record.result.pnl
    { s with
      current_balance := newBalance
      equity_curve := s.equity_curve ++ [newBalance]
      trades := s.trades ++ [record]
      trades_taken := s.trades_taken + 1 }

/-- `Backtester.run_backtest`: scan `for i in range(50, len(df) - 200)` from a
fresh state (`current_balance = initial_balance`, `equity_curve =
[initial_balance]`, empty trade log). -/
def run_backtest (df : List Candle) (cfg : BTConfig)
    (initial_balance risk_per_trade : ℚ) : BTState :=
  (List.range' 50 (df.length - 250)).foldl (step df cfg risk_per_trade)
    ⟨initial_balance, [initial_balance], [], 0, 0⟩

/-- The aggregate-metrics dictionary of `Backtester.calculate_metrics`.  The
`max_drawdown_pct` and `sharpe_ratio` fields are not modelled: the Sharpe ratio
involves a square root (irrational) and neither field is touched by any claim. -/
structure Metrics where
  total_trades : Nat
  win_count : Nat
  loss_count : Nat
  win_rate : ℚ
  total_pnl : ℚ
  total_return_pct : ℚ
  final_balance : ℚ
  avg_win : ℚ
  avg_loss : ℚ
  best_trade : ℚ
  worst_trade : ℚ
  profit_factor : ℚ
  avg_quality_score : ℚ
  avg_rr_ratio : ℚ
deriving DecidableEq, Repr

/-- Result of `Backtester.calculate_metrics`: either the explicit
`{'error': 'No trades taken'}` dictionary or the metrics record. -/
inductive MetricsResult
  | error (msg : String)
  | ok (m : Metrics)
deriving DecidableEq, Repr

/-- `Backtester.calculate_metrics()`, as a function of the trade log and of
`self.initial_balance` / `self.current_balance`. -/
def calculate_metrics (trades : List TradeRecord)
    (initial_balance current_balance : ℚ) : MetricsResult :=
  if trades.isEmpty then .error "No trades taken"
  else
    let total_trades := trades.length
    let wins := trades.filter fun t => t.result.outcome = Outcome.win
    let losses := trades.filter fun t => t.result.outcome = Outcome.loss
    let win_count := wins.length
    let loss_count := losses.length
    let win_rate : ℚ :=
      if total_trades > 0 then (win_count : ℚ) / (total_trades : ℚ) * 100 else 0
    let pnls := trades.map fun t => t.result.pnl
    let total_pnl := pnls.sum
    let total_return_pct := (current_balance - initial_balance) / initial_balance * 100
    let avg_win : ℚ :=
      if wins.length > 0 then (wins.map fun t => t.result.pnl).sum / (wins.length : ℚ) else 0
    let avg_loss : ℚ :=
      if losses.length > 0 then
        (losses.map fun t => t.result.pnl).sum / (losses.length : ℚ)
      else 0
    let best_trade := match pnls with | [] => 0 | x :: xs => xs.foldl max x
    let worst_trade := match pnls with | [] => 0 | x :: xs => xs.foldl min x
    let gross_profit : ℚ := if wins.length > 0 then (wins.map fun t => t.result.pnl).sum else 0
    let gross_loss : ℚ :=
      if losses.length > 0 then |(losses.map fun t => t.result.pnl).sum| else 0
    let profit_factor : ℚ := if gross_loss > 0 then gross_profit / gross_loss else 0
    let avg_quality_score :=
      (trades.map fun t => (t.quality_score : ℚ)).sum / (total_trades : ℚ)
    let avg_rr_ratio := (trades.map fun t => t.rr_ratio).sum / (total_trades : ℚ)
    .ok ⟨total_trades, win_count, loss_count, win_rate, total_pnl, total_return_pct,
      current_balance, avg_win, avg_loss, best_trade, worst_trade, profit_factor,
      avg_quality_score, avg_rr_ratio⟩

end Backtester

namespace Engine

/-- `engine.detect_mss_and_sl(df)`: swing flags are computed over the whole
frame; the breaking candle is `df.iloc[-2]` (raises when the frame has fewer
than 2 rows — modelled as no signal); the swing rows considered are all
flagged rows except the last two flagged ones (`df[df['swing_high']].iloc[:-2]`
drops the last two of the *filtered* rows). -/
def detect_mss_and_sl (df : List Candle) : Option (Dir × ℚ) :=
  if h : df.length < 2 then none
  else
    let last_candle := df.get ⟨df.length - 2, by omega⟩
    let shs := Backtester.swingHighList df
    let sls := Backtester.swingLowList df
    let swing_highs := shs.take (shs.length - 2)
    let swing_lows := sls.take (sls.length - 2)
    match swing_highs.getLast?, swing_lows.getLast? with
    | some last_swing_high, some last_swing_low =>
      if last_candle.close > last_swing_high then some (.bullish, last_candle.low)
      else if last_candle.close < last_swing_low then some (.bearish, last_candle.high)
      else none
    | _, _ => none

/-- The confluence dictionary of `engine.check_confluence` (the fields `ob`,
`fvg` and `overlap_size` of the source dictionary are derived copies of the
arguments and of `overlap_high - overlap_low` and are not needed by any
claim). -/
structure EngineConfluence where
  type : Dir
  overlap_high : ℚ
  overlap_low : ℚ
  overlap_pct : ℚ
  quality : Quality
deriving DecidableEq, Repr

/-- `engine.check_confluence(order_block, fvg, min_overlap_pct=30)`. -/
def check_confluence (order_block : Option OrderBlock) (fvg : Option FVG)
    (min_overlap_pct : ℚ) : Option EngineConfluence :=
  match order_block, fvg with
  | some ob, some fvg =>
    if ob.type ≠ fvg.type then none
    else
      let overlap_high := min ob.high fvg.high
      let overlap_low := max ob.low fvg.low
      if overlap_low ≥ overlap_high then none
      else
        let overlap_size := overlap_high - overlap_low
        let fvg_size := fvg.high - fvg.low
        let overlap_pct := if fvg_size > 0 then overlap_size / fvg_size * 100 else 0
        if overlap_pct < min_overlap_pct then none
        else
          some ⟨ob.type, overlap_high, overlap_low, overlap_pct,
            if overlap_pct ≥ 70 then .high
            else if overlap_pct ≥ 50 then .medium
            else .low⟩
  | _, _ => none

/-- `engine.get_refined_entry(order_block, fvg, confluence)`.  In the
low-confluence branch the source dereferences `order_block` and raises when it
is `None`; modelled as none (unreachable from callers, since a confluence
implies both zones exist). -/
def get_refined_entry (order_block : Option OrderBlock) (fvg : Option FVG)
    (confluence : Option EngineConfluence) : Option ℚ :=
  match confluence with
  | some conf =>
    match conf.quality with
    | .high => some ((conf.overlap_high + conf.overlap_low) / 2)
    | .medium =>
      some (if conf.type = Dir.bullish then conf.overlap_high else conf.overlap_low)
    | .low =>
      match order_block with
      | some ob => some ((ob.body_high + ob.body_low) / 2)
      | none => none
  | none =>
    match order_block with
    | some ob => some (if ob.type = Dir.bullish then ob.body_low else ob.body_high)
    | none =>
      match fvg with
      | some fvg => some (if fvg.type = Dir.bullish then fvg.high else fvg.low)
      | none => none

end Engine

/-! ## Helper lemmas about the simulator's scan loops -/

/-- If no candle in the scan window touches the limit price, the fill loop
finds nothing. -/
theorem fillScan_eq_none (df : List Candle) (mss_type : Dir) (entry : ℚ) :
    ∀ (fuel i : Nat),
      (∀ k ck, i ≤ k → k < i + fuel → df.get? k = some ck →
        Backtester.fillTouch mss_type entry ck = false) →
      Backtester.fillScan df mss_type entry i fuel = none := by
  intro fuel
  induction fuel with
  | zero => intro i _; rfl
  | succ fuel ih =>
    intro i h
    unfold Backtester.fillScan
    cases hg : df.get? i with
    | none => rfl
    | some ck =>
      have ht : Backtester.fillTouch mss_type entry ck = false :=
        h i ck le_rfl (by omega) hg
      dsimp only
      rw [ht]
      simp only [Bool.false_eq_true, if_false]
      exact ih (i + 1) fun k ck' hk1 hk2 hgk => h k ck' (by omega) (by omega) hgk

/-- If the first candle of the fill window touches the limit price, the fill
loop fills immediately at that index. -/
theorem fillScan_head (df : List Candle) (mss_type : Dir) (entry : ℚ)
    (i : Nat) (c : Candle) (hc : df.get? i = some c)
    (ht : Backtester.fillTouch mss_type entry c = true) :
    ∀ fuel, 0 < fuel → Backtester.fillScan df mss_type entry i fuel = some i := by
  intro fuel hf
  cases fuel with
  | zero => omega
  | succ fuel =>
    unfold Backtester.fillScan
    rw [hc]
    simp [ht]

/-- Every branch of the resolution loop reports the `bars_to_fill` it was
given. -/
theorem resolveScan_bars_to_fill (df : List Candle) (mss_type : Dir)
    (entry sl tp risk_amount : ℚ) (fill_index bars_to_fill : Nat) :
    ∀ (fuel i : Nat),
      (Backtester.resolveScan df mss_type entry sl tp risk_amount fill_index
        bars_to_fill i fuel).bars_to_fill = some bars_to_fill := by
  intro fuel
  induction fuel with
  | zero => intro i; rfl
  | succ fuel ih =>
    intro i
    unfold Backtester.resolveScan
    cases df.get? i with
    | none => rfl
    | some c =>
      cases mss_type <;> dsimp only <;> split <;> first
        | rfl
        | (split <;> first | rfl | exact ih (i + 1))

/-- If, scanning from index `i`, the first `j` candles touch neither the
stop-loss nor the take-profit and the candle at offset `j` breaches the
stop-loss, the resolution loop returns the loss dictionary at that bar
(the stop-loss check comes first in each iteration, so this holds whether or
not the take-profit is also touched there). -/
theorem resolveScan_loss (df : List Candle) (mss_type : Dir)
    (entry sl tp risk_amount : ℚ) (fill_index bars_to_fill : Nat) :
    ∀ (j fuel i : Nat) (c : Candle), j < fuel →
      (∀ k ck, i ≤ k → k < i + j → df.get? k = some ck →
        Backtester.slHit mss_type sl ck = false ∧
        Backtester.tpHit mss_type tp ck = false) →
      df.get? (i + j) = some c →
      Backtester.slHit mss_type sl c = true →
      Backtester.resolveScan df mss_type entry sl tp risk_amount fill_index
        bars_to_fill i fuel =
        ⟨.loss, -risk_amount, -|entry - sl| * 10000, some bars_to_fill,
          some (i + j - fill_index), some sl⟩ := by
  intro j
  induction j with
  | zero =>
    intro fuel i c hfuel _ hc hsl
    cases fuel with
    | zero => omega
    | succ fuel =>
      unfold Backtester.resolveScan
      rw [show i + 0 = i from rfl] at hc
      rw [hc]
      cases mss_type with
      | bullish =>
        simp only [Backtester.slHit, decide_eq_true_eq] at hsl
        simp [hsl]
      | bearish =>
        simp only [Backtester.slHit, decide_eq_true_eq] at hsl
        simp [hsl, abs_sub_comm sl entry]
  | succ j ih =>
    intro fuel i c hfuel hbefore hc hsl
    cases fuel with
    | zero => omega
    | succ fuel =>
      have hlen : i + (j + 1) < df.length := (List.get?_eq_some.mp hc).1
      have hi : i < df.length := by omega
      cases hg : df.get? i with
      | none => exact absurd (List.get?_eq_none.mp hg) (by omega)
      | some ck =>
        have hno := hbefore i ck le_rfl (by omega) hg
        have hrec := ih fuel (i + 1) c (by omega)
          (fun k ck' hk1 hk2 hgk => hbefore k ck' (by omega) (by omega) hgk)
          (by rw [show i + 1 + j = i + (j + 1) from by omega]; exact hc) hsl
        unfold Backtester.resolveScan
        rw [hg]
        have harith : i + 1 + j - fill_index = i + (j + 1) - fill_index := by omega
        cases mss_type with
        | bullish =>
          simp only [Backtester.slHit, Backtester.tpHit, decide_eq_false_iff_not] at hno
          dsimp only
          rw [if_neg hno.1, if_neg hno.2]
          rw [hrec, harith]
        | bearish =>
          simp only [Backtester.slHit, Backtester.tpHit, decide_eq_false_iff_not] at hno
          dsimp only
          rw [if_neg hno.1, if_neg hno.2]
          rw [hrec, harith]

/-! ## Claims about the trade simulator -/

/-- A concrete candle with the given open/high/low/close, for witnesses and
counterexamples. -/
def mkCandle (o h l c : ℚ) : Candle := ⟨0, o, h, l, c, 0⟩

/-- Claim C1: in the resolution loop of `simulate_trade` the stop-loss breach
is checked before the take-profit breach on every bar, so when the first bar
(at offset `j` after the fill) that touches either level in fact touches both
the stop-loss and the take-profit, the simulated outcome is 'loss' with pnl
exactly `-risk_amount` (that is, `-(balance * risk_per_trade * multiplier)`). -/
theorem claim_C1_sl_checked_before_tp
    (df : List Candle) (signal_index : Nat) (mss_type : Dir)
    (entry sl tp quality_score balance risk_per_trade : ℚ)
    (fill_index j : Nat) (c : Candle)
    (hnd : ¬ |entry - sl| < Backtester.point)
    (hfill : Backtester.fillScan df mss_type entry signal_index 60 = some fill_index)
    (hj : j < 200)
    (hbefore : ∀ k ck, fill_index ≤ k → k < fill_index + j → df.get? k = some ck →
      Backtester.slHit mss_type sl ck = false ∧ Backtester.tpHit mss_type tp ck = false)
    (hc : df.get? (fill_index + j) = some c)
    (hsl : Backtester.slHit mss_type sl c = true)
    (htp : Backtester.tpHit mss_type tp c = true) :
    (Backtester.simulate_trade df signal_index mss_type entry sl tp quality_score
        balance risk_per_trade).outcome = Outcome.loss ∧
    (Backtester.simulate_trade df signal_index mss_type entry sl tp quality_score
        balance risk_per_trade).pnl =
      -(balance * (risk_per_trade * Backtester.riskMultiplier quality_score)) := by
  have hres := resolveScan_loss df mss_type entry sl tp
    (balance * (risk_per_trade * Backtester.riskMultiplier quality_score))
    fill_index (fill_index - signal_index) j 200 fill_index c hj hbefore hc hsl
  simp only [Backtester.simulate_trade]
  rw [if_neg hnd, hfill]
  dsimp only
  rw [hres]
  exact ⟨rfl, rfl⟩

/-- Witness for C1 at a concrete input: a single candle that fills the limit
order and touches both the stop 99 and the target 101 in the same bar resolves
as a loss of exactly the risk amount. -/
theorem claim_C1_witness :
    (Backtester.simulate_trade [mkCandle 101 102 98 101] 0 Dir.bullish 100 99 101 95
        10000 (1/200)).outcome = Outcome.loss ∧
    (Backtester.simulate_trade [mkCandle 101 102 98 101] 0 Dir.bullish 100 99 101 95
        10000 (1/200)).pnl =
      -(10000 * ((1/200) * Backtester.riskMultiplier 95)) :=
  claim_C1_sl_checked_before_tp [mkCandle 101 102 98 101] 0 Dir.bullish 100 99 101 95
    10000 (1/200) 0 0 (mkCandle 101 102 98 101)
    (by norm_num [Backtester.point])
    (by decide)
    (by omega)
    (fun k ck _ h2 _ => absurd h2 (by omega))
    rfl
    (by decide)
    (by decide)

/-- Claim C2: if no candle in the 60-bar fill window starting at the signal
index touches the limit entry price in the filling direction, `simulate_trade`
returns the 'expired' dictionary with zero pnl, whatever the candles after the
window contain (the statement quantifies over all series satisfying the
window hypothesis, so candles beyond the window are unconstrained). -/
theorem claim_C2_no_fill_expired
    (df : List Candle) (signal_index : Nat) (mss_type : Dir)
    (entry sl tp quality_score balance risk_per_trade : ℚ)
    (hnofill : ∀ k ck, signal_index ≤ k → k < signal_index + 60 →
      df.get? k = some ck → Backtester.fillTouch mss_type entry ck = false) :
    Backtester.simulate_trade df signal_index mss_type entry sl tp quality_score
      balance risk_per_trade = Backtester.expiredResult := by
  have hfs := fillScan_eq_none df mss_type entry 60 signal_index hnofill
  simp only [Backtester.simulate_trade]
  split
  · rfl
  · rw [hfs]

/-- Witness for C2 at a concrete input: a series whose single candle stays
above the bullish limit price never fills, hence 'expired' with zero pnl. -/
theorem claim_C2_witness :
    Backtester.simulate_trade [mkCandle 101 102 100.5 101] 0 Dir.bullish 100 99 103 95
      10000 (1/200) = Backtester.expiredResult :=
  claim_C2_no_fill_expired [mkCandle 101 102 100.5 101] 0 Dir.bullish 100 99 103 95
    10000 (1/200)
    (by
      intro k ck _ _ hg
      match k, hg with
      | 0, hg =>
        cases Option.some.inj hg
        norm_num [Backtester.fillTouch, mkCandle]
      | Nat.succ k, hg => simp at hg)

/-- Claim C7: a degenerate stop distance (|entry - sl| below one point) makes
`simulate_trade` return the 'expired' dictionary with zero pnl immediately —
for every candle series, so neither the fill scan nor the position-size
division on the non-degenerate branch is ever reached. -/
theorem claim_C7_degenerate_stop_expired
    (df : List Candle) (signal_index : Nat) (mss_type : Dir)
    (entry sl tp quality_score balance risk_per_trade : ℚ)
    (h : |entry - sl| < Backtester.point) :
    Backtester.simulate_trade df signal_index mss_type entry sl tp quality_score
      balance risk_per_trade = Backtester.expiredResult := by
  simp only [Backtester.simulate_trade]
  rw [if_pos h]

/-- Witness for C7 at a concrete input: entry = stop-loss = 100 gives zero
stop distance, hence 'expired' even though the candle would fill and win. -/
theorem claim_C7_witness :
    Backtester.simulate_trade [mkCandle 101 102 98 101] 0 Dir.bullish 100 100 103 95
      10000 (1/200) = Backtester.expiredResult :=
  claim_C7_degenerate_stop_expired [mkCandle 101 102 98 101] 0 Dir.bullish 100 100 103
    95 10000 (1/200) (by norm_num [Backtester.point])

/-- Claim C10: the fill scan starts at the signal index itself, so when the
signal candle already touches the limit price (and the stop distance is not
degenerate) the order is filled on that very candle with `bars_to_fill = 0`;
and the resolution scan also begins on that same candle: if it additionally
breaches the stop-loss, the trade resolves as a loss with `bars_held = 0`. -/
theorem claim_C10_fill_on_signal_candle
    (df : List Candle) (signal_index : Nat) (mss_type : Dir)
    (entry sl tp quality_score balance risk_per_trade : ℚ) (c : Candle)
    (hc : df.get? signal_index = some c)
    (hnd : ¬ |entry - sl| < Backtester.point)
    (htouch : Backtester.fillTouch mss_type entry c = true) :
    (Backtester.simulate_trade df signal_index mss_type entry sl tp quality_score
        balance risk_per_trade).bars_to_fill = some 0 ∧
    (Backtester.slHit mss_type sl c = true →
      (Backtester.simulate_trade df signal_index mss_type entry sl tp quality_score
          balance risk_per_trade).outcome = Outcome.loss ∧
      (Backtester.simulate_trade df signal_index mss_type entry sl tp quality_score
          balance risk_per_trade).bars_held = some 0) := by
  have hfs := fillScan_head df mss_type entry signal_index c hc htouch 60 (by omega)
  constructor
  · simp only [Backtester.simulate_trade]
    rw [if_neg hnd, hfs]
    dsimp only
    rw [Nat.sub_self]
    exact resolveScan_bars_to_fill df mss_type entry sl tp _ signal_index 0 200 signal_index
  · intro hsl
    have hres := resolveScan_loss df mss_type entry sl tp
      (balance * (risk_per_trade * Backtester.riskMultiplier quality_score))
      signal_index (signal_index - signal_index) 0 200 signal_index c (by omega)
      (fun k ck h1 h2 _ => absurd (lt_of_le_of_lt h1 h2) (by omega))
      (by simpa using hc) hsl
    constructor
    · simp only [Backtester.simulate_trade]
      rw [if_neg hnd, hfs]
      dsimp only
      rw [hres]
    · simp only [Backtester.simulate_trade]
      rw [if_neg hnd, hfs]
      dsimp only
      rw [hres]
      simp

/-- Witness for C10 at a concrete input: the signal candle itself touches both
the entry and the stop, so the fill and the loss happen at bar offset 0. -/
theorem claim_C10_witness :
    (Backtester.simulate_trade [mkCandle 101 102 98 101] 0 Dir.bullish 100 99 103 95
        10000 (1/200)).bars_to_fill = some 0 ∧
    (Backtester.slHit Dir.bullish 99 (mkCandle 101 102 98 101) = true →
      (Backtester.simulate_trade [mkCandle 101 102 98 101] 0 Dir.bullish 100 99 103 95
          10000 (1/200)).outcome = Outcome.loss ∧
      (Backtester.simulate_trade [mkCandle 101 102 98 101] 0 Dir.bullish 100 99 103 95
          10000 (1/200)).bars_held = some 0) :=
  claim_C10_fill_on_signal_candle [mkCandle 101 102 98 101] 0 Dir.bullish 100 99 103 95
    10000 (1/200) (mkCandle 101 102 98 101) rfl (by norm_num [Backtester.point]) (by decide)

/-! ## Claims about the structure-shift detector -/

/-- A window whose lows are strictly increasing contains no swing low: the
swing-low test requires a low strictly below its left neighbour's. -/
theorem swingLowList_eq_nil :
    ∀ l : List Candle, List.Chain' (fun a b : Candle => a.low < b.low) l →
      Backtester.swingLowList l = []
  | [], _ => rfl
  | [_], _ => rfl
  | [_, _], _ => rfl
  | a :: b :: c :: rest, h => by
    have hab : a.low < b.low := (List.chain'_cons.mp h).1
    have htail : List.Chain' (fun a b : Candle => a.low < b.low) (b :: c :: rest) :=
      (List.chain'_cons.mp h).2
    have hcond : ¬ (b.low < a.low ∧ b.low < c.low) := fun hx =>
      absurd hab (not_lt.mpr (le_of_lt hx.1))
    unfold Backtester.swingLowList
    rw [if_neg hcond, List.nil_append]
    exact swingLowList_eq_nil (b :: c :: rest) htail

/-- Claim C3: on a candle series whose highs, lows and closes are all strictly
increasing (in particular over every lookback window the detector examines),
neither structure-shift detector ever returns a bearish shift at any index —
no swing low exists in such a series, so both return no signal at all, and in
particular any signal they could return would be bullish. -/
theorem claim_C3_monotone_never_bearish
    (df : List Candle)
    (hlow : List.Chain' (fun a b : Candle => a.low < b.low) df)
    (_hhigh : List.Chain' (fun a b : Candle => a.high < b.high) df)
    (_hclose : List.Chain' (fun a b : Candle => a.close < b.close) df) :
    (∀ (index : Nat) (p : Dir × ℚ), Backtester.detect_mss df index = some p →
      p.1 = Dir.bullish) ∧
    (∀ p : Dir × ℚ, Engine.detect_mss_and_sl df = some p → p.1 = Dir.bullish) := by
  constructor
  · intro index p hp
    unfold Backtester.detect_mss at hp
    by_cases h3 : index < 3
    · rw [if_pos h3] at hp; exact absurd hp (by simp)
    · rw [if_neg h3] at hp
      have hwin : Backtester.swingLowList
          ((df.take index).drop (index - min 20 index)) = [] :=
        swingLowList_eq_nil _ (((hlow.take index).drop _))
      cases hg : df.get? (index - 1) with
      | none => rw [hg] at hp; exact absurd hp (by simp)
      | some cur =>
        rw [hg] at hp
        dsimp only at hp
        rw [hwin] at hp
        cases hsh : (Backtester.swingHighList
            ((df.take index).drop (index - min 20 index))).getLast? with
        | none => rw [hsh] at hp; exact absurd hp (by simp)
        | some v => rw [hsh] at hp; exact absurd hp (by simp)
  · intro p hp
    unfold Engine.detect_mss_and_sl at hp
    by_cases h2 : df.length < 2
    · rw [dif_pos h2] at hp; exact absurd hp (by simp)
    · rw [dif_neg h2] at hp
      dsimp only at hp
      rw [swingLowList_eq_nil df hlow] at hp
      simp only [List.length_nil, List.take_nil, List.getLast?_nil] at hp
      cases hsh : ((Backtester.swingHighList df).take
          ((Backtester.swingHighList df).length - 2)).getLast? with
      | none => rw [hsh] at hp; exact absurd hp (by simp)
      | some v => rw [hsh] at hp; exact absurd hp (by simp)

/-- Witness for C3 at a concrete input: a five-candle strictly increasing
series yields no bearish shift at index 4 (indeed no shift at all). -/
theorem claim_C3_witness :
    Backtester.detect_mss
      [mkCandle 1 1 1 1, mkCandle 2 2 2 2, mkCandle 3 3 3 3,
        mkCandle 4 4 4 4, mkCandle 5 5 5 5] 4 ≠ some (Dir.bearish, 4) := by
  intro h
  have := (claim_C3_monotone_never_bearish
    [mkCandle 1 1 1 1, mkCandle 2 2 2 2, mkCandle 3 3 3 3,
      mkCandle 4 4 4 4, mkCandle 5 5 5 5]
    (by norm_num [List.chain'_cons, mkCandle])
    (by norm_num [List.chain'_cons, mkCandle])
    (by norm_num [List.chain'_cons, mkCandle])).1 4 (Dir.bearish, 4) h
  simp at this

/-! ## Claims about the confluence checker -/

/-- The overlap percentage expression of both confluence checkers is within
[0, 100] whenever theres a genuine overlap inside the gap. -/
theorem overlap_pct_bounds (oh ol fh fl : ℚ) (h1 : ol < oh) (h2 : oh ≤ fh)
    (h3 : fl ≤ ol) :
    0 ≤ (if fh - fl > 0 then (oh - ol) / (fh - fl) * 100 else 0) ∧
    (if fh - fl > 0 then (oh - ol) / (fh - fl) * 100 else 0) ≤ 100 := by
  have hsz : oh - ol ≤ fh - fl := by linarith
  have hpos : (0 : ℚ) < fh - fl := by linarith
  rw [if_pos hpos]
  constructor
  · apply mul_nonneg _ (by norm_num)
    apply div_nonneg <;> linarith
  · have hle : (oh - ol) / (fh - fl) ≤ 1 := (div_le_one hpos).mpr hsz
    linarith

/-- Claim C4: whenever either confluence checker returns a confluence zone,
its overlap percentage lies in [0, 100]; and whenever the computed overlap is
degenerate (`max` of the lows is at least `min` of the highs), both checkers
return None. -/
theorem claim_C4_confluence_bounds (ob : OrderBlock) (fvg : FVG) (m : ℚ) :
    (∀ z, Backtester.check_confluence (some ob) (some fvg) m = some z →
      0 ≤ z.overlap_pct ∧ z.overlap_pct ≤ 100) ∧
    (max ob.low fvg.low ≥ min ob.high fvg.high →
      Backtester.check_confluence (some ob) (some fvg) m = none) ∧
    (∀ z, Engine.check_confluence (some ob) (some fvg) m = some z →
      0 ≤ z.overlap_pct ∧ z.overlap_pct ≤ 100) ∧
    (max ob.low fvg.low ≥ min ob.high fvg.high →
      Engine.check_confluence (some ob) (some fvg) m = none) := by
  refine ⟨?_, ?_, ?_, ?_⟩
  · intro z hz
    simp only [Backtester.check_confluence] at hz
    split at hz
    · exact absurd hz (by simp)
    next hty =>
      split at hz
      next hdeg => exact absurd hz (by simp)
      next hdeg =>
        split at hz
        next hfs =>
          split at hz
          next => exact absurd hz (by simp)
          next =>
            cases Option.some.inj hz
            have hb := overlap_pct_bounds (ob.high ⊓ fvg.high) (ob.low ⊔ fvg.low)
              fvg.high fvg.low (lt_of_not_ge hdeg) (min_le_right _ _) (le_max_right _ _)
            rw [if_pos hfs] at hb
            exact hb
        next hfs =>
          split at hz
          next => exact absurd hz (by simp)
          next =>
            cases Option.some.inj hz
            exact ⟨le_refl 0, by norm_num⟩
  · intro hdeg
    simp only [Backtester.check_confluence]
    by_cases hty : ob.type ≠ fvg.type
    · rw [if_pos hty]
    · rw [if_neg hty]
      rw [if_pos hdeg]
  · intro z hz
    simp only [Engine.check_confluence] at hz
    split at hz
    · exact absurd hz (by simp)
    next hty =>
      split at hz
      next hdeg => exact absurd hz (by simp)
      next hdeg =>
        split at hz
        next hfs =>
          split at hz
          next => exact absurd hz (by simp)
          next =>
            cases Option.some.inj hz
            have hb := overlap_pct_bounds (ob.high ⊓ fvg.high) (ob.low ⊔ fvg.low)
              fvg.high fvg.low (lt_of_not_ge hdeg) (min_le_right _ _) (le_max_right _ _)
            rw [if_pos hfs] at hb
            exact hb
        next hfs =>
          split at hz
          next => exact absurd hz (by simp)
          next =>
            cases Option.some.inj hz
            exact ⟨le_refl 0, by norm_num⟩
  · intro hdeg
    simp only [Engine.check_confluence]
    by_cases hty : ob.type ≠ fvg.type
    · rw [if_pos hty]
    · rw [if_neg hty]
      rw [if_pos hdeg]

/-- Witness for C4 at a concrete input: order block [0, 6] and gap [0, 10]
overlap on [0, 6], 60% of the gap — inside [0, 100]; and the degenerate pair
order block [5, 6] with gap [0, 1] yields None. -/
theorem claim_C4_witness :
    (0 ≤ (Backtester.Confluence.mk 60 Quality.medium).overlap_pct ∧
      (Backtester.Confluence.mk 60 Quality.medium).overlap_pct ≤ 100) ∧
    Backtester.check_confluence (some ⟨Dir.bullish, 6, 5, 6, 5⟩)
      (some ⟨Dir.bullish, 1, 0⟩) 40 = none :=
  ⟨(claim_C4_confluence_bounds ⟨Dir.bullish, 6, 0, 5, 1⟩ ⟨Dir.bullish, 10, 0⟩ 40).1
      ⟨60, Quality.medium⟩
      (by norm_num [Backtester.check_confluence]),
    (claim_C4_confluence_bounds ⟨Dir.bullish, 6, 5, 6, 5⟩ ⟨Dir.bullish, 1, 0⟩ 40).2.1
      (by norm_num)⟩

/-! ## Claims about the order-block locator -/

/-- The last element of a list satisfying a predicate (None when no element
does) — the "most recent" qualifying candle of a chronologically ordered
window. -/
def lastSatisfying (p : Candle → Bool) : List Candle → Option Candle
  | [] => none
  | c :: rest =>
    match lastSatisfying p rest with
    | some x => some x
    | none => if p c then some c else none

/-- Formalisation of the claim's words "the most recent candle whose body
direction is opposite the shift direction" over a given scan window. -/
def mostRecentOpposite (mss_type : Dir) (window : List Candle) : Option Candle :=
  lastSatisfying (Backtester.oppositeBody mss_type) window

/-- Unfolding lemma: scanning `c :: rest` prefers the result from `rest`. -/
theorem lastSatisfying_cons (p : Candle → Bool) (c : Candle) (rest : List Candle) :
    lastSatisfying p (c :: rest) =
      (lastSatisfying p rest).or (if p c then some c else none) := by
  conv_lhs => rw [lastSatisfying]
  cases lastSatisfying p rest <;> rfl

/-- The source's `window[window[...]].iloc[-1]` (filter, then last element)
computes exactly the last element satisfying the predicate. -/
theorem getLast?_filter_eq_lastSatisfying (p : Candle → Bool) :
    ∀ l : List Candle, (l.filter p).getLast? = lastSatisfying p l
  | [] => rfl
  | c :: rest => by
    rw [List.filter_cons, lastSatisfying_cons,
      ← getLast?_filter_eq_lastSatisfying p rest]
    by_cases hp : p c
    · rw [if_pos hp, if_pos hp]
      cases hfr : rest.filter p with
      | nil => simp
      | cons x xs =>
        rw [List.getLast?_cons_cons,
          List.getLast?_eq_getLast (x :: xs) (by simp)]
        rfl
    · rw [if_neg hp, if_neg hp]
      cases (rest.filter p).getLast? <;> rfl

/-- Counterexample to claim C5 as stated: with the default lookback of 20, at
index 20 of a series whose candles 0–18 are bullish-bodied and whose candle 19
(the candle whose close triggered the shift, `df.iloc[index-1]`) is
bearish-bodied, the locator returns the order block built from candle 19
itself — yet no candle strictly preceding the signal candle has an opposite
body, so under the claim's window the result would have been None. -/
def dfC5 : List Candle :=
  ((List.range 19).map fun _ => mkCandle 1 3 0 2) ++ [mkCandle 2 3 0 1]

/-- Counterexample for C5: the scan window of `find_order_block` includes the
candle at `index - 1` whose close triggered the structure shift; on `dfC5` the
locator returns that very candle as the order block, while the most recent
opposite-body candle strictly preceding it does not exist. -/
theorem claim_C5_counterexample :
    Backtester.find_order_block dfC5 20 Dir.bullish 20 =
      some (Backtester.mkOrderBlock Dir.bullish (mkCandle 2 3 0 1)) ∧
    dfC5.get? 19 = some (mkCandle 2 3 0 1) ∧
    Backtester.oppositeBody Dir.bullish (mkCandle 2 3 0 1) = true ∧
    mostRecentOpposite Dir.bullish ((dfC5.take 19).drop (19 - 20)) = none := by
  refine ⟨rfl, rfl, rfl, rfl⟩

/-- Claim C5, amended: the scan window of `find_order_block` consists of the
`lookback` candles at indices `index - lookback` through `index - 1` — it
excludes the candle at the scan index (the in-progress candle) but includes
the candle at `index - 1`, the one whose close triggered the shift — and the
locator returns the most recent candle of that window whose body direction is
opposite the shift direction, or None when no such candle exists. -/
theorem claim_C5_amended_ob_window (df : List Candle) (index lookback : Nat)
    (mss_type : Dir) (h1 : lookback ≤ index) :
    (∀ j, j < lookback →
      ((df.take index).drop (index - lookback)).get? j =
        df.get? (index - lookback + j)) ∧
    Backtester.find_order_block df index mss_type lookback =
      (mostRecentOpposite mss_type ((df.take index).drop (index - lookback))).map
        (Backtester.mkOrderBlock mss_type) := by
  constructor
  · intro j hj
    rw [List.get?_eq_getElem?, List.get?_eq_getElem?, List.getElem?_drop,
      List.getElem?_take_of_lt (by omega)]
  · unfold Backtester.find_order_block
    rw [if_neg (by omega : ¬ index < lookback)]
    cases mss_type with
    | bullish =>
      dsimp only
      rw [getLast?_filter_eq_lastSatisfying]
      rfl
    | bearish =>
      dsimp only
      rw [getLast?_filter_eq_lastSatisfying]
      rfl

/-- Witness for the amended C5 at a concrete input: index 2 with lookback 1 on
a three-candle series scans exactly the candle at index 1 (the shift candle)
and returns it as the order block. -/
theorem claim_C5_witness :
    (([mkCandle 1 2 0 2, mkCandle 2 3 0 1, mkCandle 1 2 0 2].take 2).drop 1).get? 0 =
      [mkCandle 1 2 0 2, mkCandle 2 3 0 1, mkCandle 1 2 0 2].get? 1 ∧
    Backtester.find_order_block [mkCandle 1 2 0 2, mkCandle 2 3 0 1, mkCandle 1 2 0 2]
        2 Dir.bullish 1 =
      (mostRecentOpposite Dir.bullish
          (([mkCandle 1 2 0 2, mkCandle 2 3 0 1, mkCandle 1 2 0 2].take 2).drop 1)).map
        (Backtester.mkOrderBlock Dir.bullish) :=
  ⟨(claim_C5_amended_ob_window
      [mkCandle 1 2 0 2, mkCandle 2 3 0 1, mkCandle 1 2 0 2] 2 1 Dir.bullish
      (by omega)).1 0 (by omega),
    (claim_C5_amended_ob_window
      [mkCandle 1 2 0 2, mkCandle 2 3 0 1, mkCandle 1 2 0 2] 2 1 Dir.bullish
      (by omega)).2⟩

/-! ## Claims about the entry resolver -/

/-- Counterexample to claim C6 as stated: a medium-quality confluence (60% of
the gap) produced by `Backtester.check_confluence` itself.  The claim's ladder
prescribes the overlap edge nearer the order block's favorable side — here
`overlap_high = min ob.high fvg.high = 6` — but `Backtester.get_entry_price`
falls through to the order-block body edge and returns 1. -/
theorem claim_C6_counterexample :
    Backtester.check_confluence (some ⟨Dir.bullish, 6, 0, 5, 1⟩)
        (some ⟨Dir.bullish, 10, 0⟩) 40 = some ⟨60, Quality.medium⟩ ∧
    Backtester.get_entry_price (some ⟨Dir.bullish, 6, 0, 5, 1⟩)
        (some ⟨Dir.bullish, 10, 0⟩) (some ⟨60, Quality.medium⟩) = some 1 ∧
    min (6 : ℚ) 10 = 6 ∧ (1 : ℚ) ≠ 6 :=
  ⟨by norm_num [Backtester.check_confluence], rfl, by norm_num, by norm_num⟩

/-- Claim C6, amended: the engine's `get_refined_entry` follows the full
priority ladder of the claim (high-quality confluence → overlap midpoint;
medium → the overlap edge nearer the order block's favorable side; low →
order-block body midpoint; order block without confluence → body edge nearest
the fill direction; otherwise the gap edge), while the backtester's
`get_entry_price` implements only the high-confluence rung and otherwise
returns the order-block body edge whenever an order block is present — even
for medium- or low-quality confluence — and None when no order block exists
(no gap-edge fallback). -/
theorem claim_C6_amended_entry_ladder (ob : OrderBlock) (fvg : FVG)
    (conf : Engine.EngineConfluence) (ob? : Option OrderBlock)
    (fvg? : Option FVG) (bconf : Backtester.Confluence) :
    (conf.quality = Quality.high →
      Engine.get_refined_entry ob? fvg? (some conf) =
        some ((conf.overlap_high + conf.overlap_low) / 2)) ∧
    (conf.quality = Quality.medium →
      Engine.get_refined_entry ob? fvg? (some conf) =
        some (if conf.type = Dir.bullish then conf.overlap_high
          else conf.overlap_low)) ∧
    (conf.quality = Quality.low →
      Engine.get_refined_entry (some ob) fvg? (some conf) =
        some ((ob.body_high + ob.body_low) / 2)) ∧
    (Engine.get_refined_entry (some ob) fvg? none =
      some (if ob.type = Dir.bullish then ob.body_low else ob.body_high)) ∧
    (Engine.get_refined_entry none (some fvg) none =
      some (if fvg.type = Dir.bullish then fvg.high else fvg.low)) ∧
    (bconf.quality = Quality.high →
      Backtester.get_entry_price (some ob) (some fvg) (some bconf) =
        some ((min ob.high fvg.high + max ob.low fvg.low) / 2)) ∧
    (bconf.quality ≠ Quality.high →
      Backtester.get_entry_price (some ob) fvg? (some bconf) =
        some (if ob.type = Dir.bullish then ob.body_low else ob.body_high)) ∧
    (Backtester.get_entry_price (some ob) fvg? none =
      some (if ob.type = Dir.bullish then ob.body_low else ob.body_high)) ∧
    (bconf.quality ≠ Quality.high →
      Backtester.get_entry_price none fvg? (some bconf) = none) ∧
    Backtester.get_entry_price none fvg? none = none := by
  refine ⟨?_, ?_, ?_, ?_, ?_, ?_, ?_, ?_, ?_, ?_⟩
  · intro h
    unfold Engine.get_refined_entry
    dsimp only
    rw [h]
  · intro h
    unfold Engine.get_refined_entry
    dsimp only
    rw [h]
  · intro h
    unfold Engine.get_refined_entry
    dsimp only
    rw [h]
  · rfl
  · rfl
  · intro h
    unfold Backtester.get_entry_price
    dsimp only
    rw [h]
    rfl
  · intro h
    unfold Backtester.get_entry_price
    dsimp only
    cases hq : bconf.quality with
    | high => exact absurd hq h
    | medium => rfl
    | low => rfl
  · rfl
  · intro h
    unfold Backtester.get_entry_price
    dsimp only
    cases hq : bconf.quality with
    | high => exact absurd hq h
    | medium => rfl
    | low => rfl
  · rfl

/-- Witness for the amended C6 at a concrete input: a medium-quality engine
confluence of bullish type yields the top of the overlap zone (6) as entry. -/
theorem claim_C6_witness :
    Engine.get_refined_entry (some ⟨Dir.bullish, 6, 0, 5, 1⟩)
        (some ⟨Dir.bullish, 10, 0⟩)
        (some ⟨Dir.bullish, 6, 0, 60, Quality.medium⟩) = some 6 := by
  have h := (claim_C6_amended_entry_ladder ⟨Dir.bullish, 6, 0, 5, 1⟩
    ⟨Dir.bullish, 10, 0⟩ ⟨Dir.bullish, 6, 0, 60, Quality.medium⟩
    (some ⟨Dir.bullish, 6, 0, 5, 1⟩) (some ⟨Dir.bullish, 10, 0⟩)
    ⟨60, Quality.medium⟩).2.1 rfl
  simpa using h

/-! ## Claims about the orchestrator and the metrics -/

/-- Claim C8: with an empty trade log `calculate_metrics` returns the explicit
'No trades taken' error and computes no aggregate; with a nonempty log it
returns a metrics record whose trade count equals the (positive) length of the
log, so the win-rate division divides by a positive count. -/
theorem claim_C8_no_trades (trades : List Backtester.TradeRecord)
    (initial_balance current_balance : ℚ) :
    (trades = [] →
      Backtester.calculate_metrics trades initial_balance current_balance =
        Backtester.MetricsResult.error "No trades taken") ∧
    (trades ≠ [] →
      ∃ m, Backtester.calculate_metrics trades initial_balance current_balance =
        Backtester.MetricsResult.ok m ∧ m.total_trades = trades.length ∧
        0 < m.total_trades ∧
        m.win_rate = (m.win_count : ℚ) / (m.total_trades : ℚ) * 100) := by
  constructor
  · intro h
    subst h
    rfl
  · intro h
    match trades, h with
    | t :: ts, _ =>
      refine ⟨_, rfl, rfl, by simp, ?_⟩
      simp only [Backtester.calculate_metrics]
      rw [if_pos (by simp)]

/-- Witness for C8 at concrete inputs: the empty log reports the error; a
one-trade log does not. -/
theorem claim_C8_witness :
    Backtester.calculate_metrics [] 10000 10000 =
      Backtester.MetricsResult.error "No trades taken" ∧
    Backtester.calculate_metrics
        [⟨0, Dir.bullish, 100, 99, 103, 95, Rating.excellent, 3,
          ⟨Outcome.loss, -75, -10000, some 0, some 0, some 99⟩⟩] 10000 9925 ≠
      Backtester.MetricsResult.error "No trades taken" := by
  constructor
  · exact (claim_C8_no_trades [] 10000 10000).1 rfl
  · obtain ⟨m, hm, -, -, -⟩ :=
      (claim_C8_no_trades
        [⟨0, Dir.bullish, 100, 99, 103, 95, Rating.excellent, 3,
          ⟨Outcome.loss, -75, -10000, some 0, some 0, some 99⟩⟩] 10000 9925).2 (by simp)
    rw [hm]
    simp

/-- A confluence result presupposes both the order block and the gap:
`check_confluence` returns None when either argument is missing. -/
theorem check_confluence_requires_both (ob : Option OrderBlock)
    (fvg : Option FVG) (m : ℚ) (z : Backtester.Confluence)
    (h : Backtester.check_confluence ob fvg m = some z) :
    ∃ o g, ob = some o ∧ fvg = some g := by
  cases ob with
  | none =>
    cases fvg <;> exact absurd h (by simp [Backtester.check_confluence])
  | some o =>
    cases fvg with
    | none => exact absurd h (by simp [Backtester.check_confluence])
    | some g => exact ⟨o, g, rfl, rfl⟩

/-- With a shift, an order block, a gap and a confluence all present, the
additive setup score is at least 25 + 25 + 25 + 15 = 90. -/
theorem calculate_setup_quality_with_confluence (mss : Dir) (ob : OrderBlock)
    (fvg : FVG) (c : Backtester.Confluence) :
    90 ≤ (Backtester.calculate_setup_quality (some mss) (some ob) (some fvg)
      (some c)).score := by
  simp only [Backtester.calculate_setup_quality]
  cases c.quality <;> simp

/-- Any trade record produced by the per-index pipeline under
`require_confluence = True` carries a quality score of at least 90. -/
theorem tryTrade_quality_score (df : List Candle) (cfg : Backtester.BTConfig)
    (risk_per_trade balance : ℚ) (i : Nat) (r : Backtester.TradeRecord)
    (hreq : cfg.require_confluence = true)
    (h : Backtester.tryTrade df cfg risk_per_trade balance i = some r) :
    90 ≤ r.quality_score := by
  simp only [Backtester.tryTrade] at h
  cases hdet : Backtester.detect_mss df i with
  | none => rw [hdet] at h; exact absurd h (by simp)
  | some p =>
    obtain ⟨mss_type, sl⟩ := p
    rw [hdet] at h
    dsimp only at h
    by_cases hng : (cfg.require_confluence = true ∧
        (Backtester.check_confluence (Backtester.find_order_block df i mss_type)
          (Backtester.find_fvg df i) cfg.min_confluence).isNone = true)
    · rw [if_pos hng] at h
      exact absurd h (by simp)
    · rw [if_neg hng] at h
      obtain ⟨c, hc⟩ : ∃ c, Backtester.check_confluence
          (Backtester.find_order_block df i mss_type)
          (Backtester.find_fvg df i) cfg.min_confluence = some c := by
        cases hcc : Backtester.check_confluence
            (Backtester.find_order_block df i mss_type)
            (Backtester.find_fvg df i) cfg.min_confluence with
        | none => exact absurd ⟨hreq, by rw [hcc]; rfl⟩ hng
        | some c => exact ⟨c, rfl⟩
      obtain ⟨o, g, ho, hg⟩ := check_confluence_requires_both _ _ _ _ hc
      by_cases hq : (Backtester.calculate_setup_quality (some mss_type)
          (Backtester.find_order_block df i mss_type) (Backtester.find_fvg df i)
          (Backtester.check_confluence (Backtester.find_order_block df i mss_type)
            (Backtester.find_fvg df i) cfg.min_confluence)).score < cfg.min_quality
      · rw [if_pos hq] at h
        exact absurd h (by simp)
      · rw [if_neg hq] at h
        cases hge : Backtester.get_entry_price
            (Backtester.find_order_block df i mss_type) (Backtester.find_fvg df i)
            (Backtester.check_confluence (Backtester.find_order_block df i mss_type)
              (Backtester.find_fvg df i) cfg.min_confluence) with
        | none => rw [hge] at h; exact absurd h (by simp)
        | some entry =>
          rw [hge] at h
          dsimp only at h
          by_cases he0 : entry = 0
          · rw [if_pos he0] at h
            exact absurd h (by simp)
          · rw [if_neg he0] at h
            have hscore : 90 ≤ (Backtester.calculate_setup_quality (some mss_type)
                (Backtester.find_order_block df i mss_type)
                (Backtester.find_fvg df i)
                (Backtester.check_confluence
                  (Backtester.find_order_block df i mss_type)
                  (Backtester.find_fvg df i) cfg.min_confluence)).score := by
              rw [ho, hg] at hc
              rw [ho, hg, hc]
              exact calculate_setup_quality_with_confluence mss_type o g c
            repeat' split at h
            all_goals
              first
              | exact Option.noConfusion h
              | (cases (Option.some.inj h).symm
                 exact hscore)

/-- One orchestrator step preserves the score invariant of the trade log. -/
theorem step_preserves_quality (df : List Candle) (cfg : Backtester.BTConfig)
    (risk_per_trade : ℚ) (hreq : cfg.require_confluence = true)
    (s : Backtester.BTState) (i : Nat)
    (hs : ∀ r ∈ s.trades, 90 ≤ r.quality_score) :
    ∀ r ∈ (Backtester.step df cfg risk_per_trade s i).trades,
      90 ≤ r.quality_score := by
  intro r hr
  simp only [Backtester.step] at hr
  set s1 := if (Backtester.detect_mss df i).isSome = true
    then { s with signals_found := s.signals_found + 1 } else s with hs1
  have htr : s1.trades = s.trades := by
    rw [hs1]
    split <;> rfl
  cases htt : Backtester.tryTrade df cfg risk_per_trade s1.current_balance i with
  | none =>
    rw [htt] at hr
    rw [htr] at hr
    exact hs r hr
  | some record =>
    rw [htt] at hr
    dsimp only at hr
    rw [htr] at hr
    rcases List.mem_append.mp hr with hmem | hmem
    · exact hs r hmem
    · rw [List.mem_singleton] at hmem
      subst hmem
      exact tryTrade_quality_score df cfg risk_per_trade s1.current_balance i r hreq htt

/-- Claim C9 (implicit invariant): when the backtest runs with
`require_confluence = True`, every record in the resulting trade log has a
quality score of at least 90 (rated EXCELLENT) — a confluence requires both
the order block and the gap, so the additive score is at least
25 + 25 + 25 + 15; the configured minimum-quality gate can only filter
records and never admits one below 90. -/
theorem claim_C9_require_confluence_score (df : List Candle)
    (cfg : Backtester.BTConfig) (initial_balance risk_per_trade : ℚ)
    (hreq : cfg.require_confluence = true) :
    ∀ r ∈ (Backtester.run_backtest df cfg initial_balance risk_per_trade).trades,
      90 ≤ r.quality_score := by
  unfold Backtester.run_backtest
  have key : ∀ (l : List Nat) (s : Backtester.BTState),
      (∀ r ∈ s.trades, 90 ≤ r.quality_score) →
      ∀ r ∈ (l.foldl (Backtester.step df cfg risk_per_trade) s).trades,
        90 ≤ r.quality_score := by
    intro l
    induction l with
    | nil => intro s hs; simpa using hs
    | cons i rest ih =>
      intro s hs
      rw [List.foldl_cons]
      exact ih _ (step_preserves_quality df cfg risk_per_trade hreq s i hs)
  exact key _ _ (by simp)

/-- Witness for C9 at a concrete input: a 251-candle strictly increasing
series (one scan index, no structure shift detected) with confluence
required. -/
theorem claim_C9_witness :
    ((Backtester.run_backtest
        ((List.range 251).map fun n => mkCandle (n : ℚ) (n : ℚ) (n : ℚ) (n : ℚ))
        ⟨70, 40, true⟩ 10000 (1/200)).trades.all
      fun r => decide (90 ≤ r.quality_score)) = true := by
  have h := claim_C9_require_confluence_score
    ((List.range 251).map fun n => mkCandle (n : ℚ) (n : ℚ) (n : ℚ) (n : ℚ))
    ⟨70, 40, true⟩ 10000 (1/200) rfl
  rw [List.all_eq_true]
  intro r hr
  exact decide_eq_true (h r hr)
